import Mathlib

/-!
Shallow embedding of `src/validation.ts` (comonadd/validate-form-ts), a
declarative form-validation library: a fluent field builder producing typed
validation descriptors, and a recursive schema validator collecting error
messages into a sparse nested map.

Modelling choices, each tied to a line of the source:

* JavaScript runtime values are modelled by the inductive `Value`.  Primitive
  strings (`"x"`) and boxed `String` objects (`new String("x")`) are distinct
  constructors because `value instanceof String` (line 111) is `false` for
  primitives and `true` only for boxed objects.  `nan` models the number NaN.
* `DEFAULT_CRITERIA` (line 63) is a single module-level object.  `typedField`
  (line 99) stores `criteria: DEFAULT_CRITERIA` — the same reference, not a
  copy — so the mutable `Criteria` heap is modelled by `World.cells`, with
  every typed descriptor holding the address `DEFAULT_CRITERIA_ADDR = 0`.
  Operations that read or write a descriptor's criteria take and return a
  `World`.
* `assert` (line 4) throwing `AssertionError`, and a JS `TypeError` from
  property access on `undefined`/`null` (line 191 when `data` is missing),
  are modelled with `Except RtError`.
* The current instant (`new Date(Date.now())`, line 138) is modelled by `Env`
  carrying the broken-down local components the code reads: `getFullYear`,
  `getMonth` (0–11), `getDay` (weekday 0–6), plus `getDate` (day of month,
  1–31) which the code does NOT read but the spec's intended semantics needs.
  `new Date(y, mIdx, d).getTime()` is `jsDateGetTime`, counting milliseconds
  from the epoch with the standard civil-calendar day count (local zone
  modelled with zero offset; every timestamp in the claims is built the same
  way, so the offset cancels).
* `_fieldName` on a typed descriptor is `Option String` with `none` playing
  the role of `null`: the source asserts `_fieldName !== null` (line 106),
  so the runtime type is nullable even though the builder always sets it.
* Lean's `String.trim`/`String.replace` are avoided in favour of explicit
  character-list functions (`jsTrim`, `replaceAllUnderscoreWithSpace`,
  `lodashCapitalize`) that mirror `String.prototype.trim`,
  `replaceAll("_", " ")` and lodash `capitalize` on ASCII input and compute
  by structural recursion.
-/

namespace FormValidation

/-- JavaScript runtime values, as discriminated by the checks the source
performs (`=== undefined`, `instanceof String/Array/Set`, truthiness,
`new Date(v).getTime()`). `str` is a primitive string, `strObj` a boxed
`String` object; `nan` is the number NaN; `date t` a `Date` whose
`getTime()` is `t` milliseconds. -/
inductive Value where
  | undef
  | vnull
  | str (s : String)
  | strObj (s : String)
  | num (n : Int)
  | nan
  | bool (b : Bool)
  | date (t : Int)
  | arr (xs : List Value)
  | set (xs : List Value)
  | obj (fields : List (String × Value))

/-- `const enum FieldType { String, Array, File }` (lines 22–26). -/
inductive FieldType where
  | string
  | array
  | file
deriving DecidableEq

/-- `interface Criteria { required: boolean; type: FieldType }` (lines 28–31). -/
structure Criteria where
  required : Bool
  type : FieldType
deriving DecidableEq

/-- `keyof Criteria`: the keys of the `_messages` map. -/
inductive CriteriaKey where
  | required
  | type
deriving DecidableEq

/-- The mutable heap of `Criteria` objects.  The source allocates exactly one
(`DEFAULT_CRITERIA`, line 63) and `typedField` aliases it into every
descriptor, so cell 0 is that object. -/
structure World where
  cells : List Criteria
deriving DecidableEq

/-- `const DEFAULT_CRITERIA: Criteria = { required: false, type: FieldType.String }`
(lines 63–66). -/
def DEFAULT_CRITERIA : Criteria := { required := false, type := FieldType.string }

/-- The heap address of the module-level `DEFAULT_CRITERIA` object. -/
def DEFAULT_CRITERIA_ADDR : Nat := 0

/-- The heap at module load: only `DEFAULT_CRITERIA` exists. -/
def initialWorld : World := { cells := [DEFAULT_CRITERIA] }

/-- Broken-down local components of `new Date(Date.now())` that the source
reads (`getFullYear()`, `getMonth()` 0–11, `getDay()` weekday 0–6), plus
`getDate()` (day of month) which `timeOfThisDay` was presumably meant to
use. -/
structure Env where
  year : Int
  month : Int
  day : Int
  date : Int

/-- `type CustomValidator = (value: any) => string | null` (line 41).  The
`Env` argument models the validator reading the clock (`Date.now()`) at
validation time. -/
def CustomValidator : Type := Env → Value → Option String

/-- The object returned by `field(name)` (lines 161–178): just the name; the
kind-selector closures are modelled as the functions below. -/
structure UntypedValidationCriteriaBuilder where
  _fieldName : String

/-- The typed descriptor built by `typedField` (lines 95–135).  `_fieldName`
is `Option String` because the source asserts it `!== null` at line 106;
`criteriaRef` is the heap address of its `criteria` object;
`__isValidator: true` is represented by membership in this type (the schema
walker's marker test becomes a constructor match on `ValidationSchema`). -/
structure TypedValidationCriteriaBuilder where
  _fieldName : Option String
  criteriaRef : Nat
  customCriteria : List CustomValidator
  _messages : List (CriteriaKey × String)

/-- `Map.get` on the `_messages` insertion-ordered map. -/
def mapGet : List (CriteriaKey × String) → CriteriaKey → Option String
  | [], _ => none
  | (k, v) :: rest, key => if k = key then some v else mapGet rest key

/-- `Map.set` on the `_messages` map: replace in place or append. -/
def mapSet : List (CriteriaKey × String) → CriteriaKey → String → List (CriteriaKey × String)
  | [], key, v => [(key, v)]
  | (k, v') :: rest, key, v =>
    if k = key then (key, v) :: rest else (k, v') :: mapSet rest key v

/-- `replaceAll("_", " ")` of line 12 (single-character pattern, so a map). -/
def replaceAllUnderscoreWithSpace (s : String) : String :=
  String.mk (s.data.map (fun c => if c = '_' then ' ' else c))

/-- lodash `capitalize`: first character upper-cased, the rest lower-cased
(ASCII). -/
def lodashCapitalize (s : String) : String :=
  match s.data with
  | [] => ""
  | c :: cs => String.mk (c.toUpper :: cs.map Char.toLower)

/-- `fieldReadable` (lines 11–13): `capitalize(String(field).replaceAll("_", " "))`. -/
def fieldReadable (f : String) : String :=
  lodashCapitalize (replaceAllUnderscoreWithSpace f)

/-- The ASCII whitespace recognised by `String.prototype.trim` that can occur
in our inputs. -/
def isJsSpace (c : Char) : Bool :=
  c = ' ' || c = '\t' || c = '\n' || c = '\r'

/-- `String.prototype.trim`: drop leading and trailing whitespace. -/
def jsTrim (s : String) : String :=
  String.mk (((s.data.dropWhile isJsSpace).reverse.dropWhile isJsSpace).reverse)

/-- `buildDefaultMessageForCriteria` (lines 68–83).  The `default` branch
logs a diagnostic (`console.error`, a side effect outside the value model)
and returns `"Unknown error"`. -/
def buildDefaultMessageForCriteria (criteria : CriteriaKey) (fieldName : String) : String :=
  let fn := fieldReadable fieldName
  match criteria with
  | CriteriaKey.required => fn ++ " is required"
  | CriteriaKey.type => "Unknown error"

/-- `getMessageForCriteria` (lines 85–93).  `if (!customMsg)` is JS
truthiness: both a missing entry and the empty string fall back to the
default message. -/
def getMessageForCriteria (builder : TypedValidationCriteriaBuilder)
    (fieldName : String) (criteria : CriteriaKey) : String :=
  match mapGet builder._messages criteria with
  | none => buildDefaultMessageForCriteria criteria fieldName
  | some customMsg =>
    if customMsg = "" then buildDefaultMessageForCriteria criteria fieldName else customMsg

/-- Runtime errors that escape `validate`: the `AssertionError` thrown by
`assert` (line 6) and the `TypeError` from reading a property of
`undefined`/`null`. -/
inductive RtError where
  | assertionFailed
  | typeError
deriving DecidableEq

/-- Read a descriptor's `criteria` object from the heap. -/
def getCriteria (w : World) (b : TypedValidationCriteriaBuilder) : Criteria :=
  (w.cells.get? b.criteriaRef).getD DEFAULT_CRITERIA

/-- The emptiness test of the required check (lines 109–117): `undefined`,
a boxed `String` that is blank after trim, an `Array` of length 0, or a
`Set` of size 0.  Note `instanceof String` is false for primitive strings,
so `Value.str` never matches. -/
def requiredTriggers : Value → Bool
  | Value.undef => true
  | Value.strObj s => (jsTrim s).length == 0
  | Value.arr xs => xs.length == 0
  | Value.set xs => xs.length == 0
  | _ => false

/-- The `for (let customChecker of _this.customCriteria)` loop
(lines 119–123): run every checker in order, keeping non-null messages. -/
def runCustoms (env : Env) (value : Value) : List CustomValidator → List String
  | [] => []
  | c :: rest =>
    match c env value with
    | none => runCustoms env value rest
    | some e => e :: runCustoms env value rest

/-- The typed descriptor's `validate` (lines 102–125): the required check
first (pushing at most one message, guarded by the line-106 assert on the
field name), then every custom criterion in registration order.  The body
never writes to the heap, so the returned `World` is the input one. -/
def TypedValidationCriteriaBuilder.validate (b : TypedValidationCriteriaBuilder)
    (env : Env) (w : World) (value : Value) :
    Except RtError (List String) × World :=
  if (getCriteria w b).required && requiredTriggers value then
    match b._fieldName with
    | none => (Except.error RtError.assertionFailed, w)
    | some fn =>
      (Except.ok (getMessageForCriteria b fn CriteriaKey.required
        :: runCustoms env value b.customCriteria), w)
  else
    (Except.ok (runCustoms env value b.customCriteria), w)

/-- The descriptor's `required(msg?)` method (lines 126–132): set
`criteria.required = true` on the (shared) criteria object, and store the
message override only when `msg` is truthy (present and non-empty). -/
def TypedValidationCriteriaBuilder.required (b : TypedValidationCriteriaBuilder)
    (msg : Option String) (w : World) :
    TypedValidationCriteriaBuilder × World :=
  let c := getCriteria w b
  let w' : World := { cells := w.cells.set b.criteriaRef { c with required := true } }
  let b' :=
    match msg with
    | some m =>
      if m = "" then b else { b with _messages := mapSet b._messages CriteriaKey.required m }
    | none => b
  (b', w')

/-- `typedField` (lines 95–135): spread the untyped builder (copying the
field name) and alias the module-level `DEFAULT_CRITERIA` object —
`criteria: DEFAULT_CRITERIA` stores the reference, not a copy. -/
def typedField (f : UntypedValidationCriteriaBuilder) : TypedValidationCriteriaBuilder :=
  { _fieldName := some f._fieldName
    criteriaRef := DEFAULT_CRITERIA_ADDR
    customCriteria := []
    _messages := [] }

/-- `field(fieldName)` (lines 161–178). -/
def field (fieldName : String) : UntypedValidationCriteriaBuilder :=
  { _fieldName := fieldName }

/-- The `string()` kind selector (line 164). -/
def UntypedValidationCriteriaBuilder.string (f : UntypedValidationCriteriaBuilder) :
    TypedValidationCriteriaBuilder := typedField f

/-- The `array()` kind selector (line 167). -/
def UntypedValidationCriteriaBuilder.array (f : UntypedValidationCriteriaBuilder) :
    TypedValidationCriteriaBuilder := typedField f

/-- The `file()` kind selector (line 170). -/
def UntypedValidationCriteriaBuilder.file (f : UntypedValidationCriteriaBuilder) :
    TypedValidationCriteriaBuilder := typedField f

/-- JS truthiness for the values of `Value` (used by `if (!_value)` at
line 146 of the source): `undefined`, `null`, `""`, `0`, `NaN` and `false`
are falsy; every object (boxed string, array, set, date, plain object) is
truthy. -/
def truthy : Value → Bool
  | Value.undef => false
  | Value.vnull => false
  | Value.str s => !(s.length == 0)
  | Value.strObj _ => true
  | Value.num n => !(n == 0)
  | Value.nan => false
  | Value.bool b => b
  | Value.date _ => true
  | Value.arr _ => true
  | Value.set _ => true
  | Value.obj _ => true

/-- Days from the epoch 1970-01-01 of the civil date `(y, m, d)` with
`m ∈ 1..12` (Howard Hinnant's `days_from_civil`; linear in `d`, so `d = 0`
denotes the last day of the previous month exactly as `new Date` rolls it
over). -/
def daysFromCivil (y m d : Int) : Int :=
  let yAdj := if m ≤ 2 then y - 1 else y
  let era := Int.fdiv yAdj 400
  let yoe := yAdj - era * 400
  let mp := if m > 2 then m - 3 else m + 9
  let doy := Int.fdiv (153 * mp + 2) 5 + d - 1
  let doe := yoe * 365 + Int.fdiv yoe 4 - Int.fdiv yoe 100 + doy
  era * 146097 + doe - 719468

/-- `new Date(year, monthIndex, day).getTime()` with `monthIndex ∈ 0..11`
(overflowing month or day rolls over, as in JS): milliseconds since the
epoch at local midnight of that rolled-over date (local zone modelled with
zero offset). -/
def jsDateGetTime (year monthIndex day : Int) : Int :=
  let y := year + Int.fdiv monthIndex 12
  let m := Int.emod monthIndex 12 + 1
  86400000 * (daysFromCivil y m 1 + (day - 1))

/-- The weekday (`getDay()`, Sunday = 0) of a civil date: 1970-01-01 was a
Thursday (= 4). -/
def weekdayOf (y m d : Int) : Int :=
  Int.emod (daysFromCivil y m d + 4) 7

/-- `timeOfThisDay` (lines 137–140): the source builds
`new Date(now.getFullYear(), now.getMonth(), now.getDay())` — note
`getDay()`, the weekday 0–6, where `getDate()` (day of month) gives the
start of the current calendar day. -/
def timeOfThisDay (env : Env) : Int :=
  jsDateGetTime env.year env.month env.day

/-- What the spec says `timeOfThisDay` should compute ("today's date at
local midnight"): the same construction with `getDate()`, the day of the
month. -/
def startOfTodayIntended (env : Env) : Int :=
  jsDateGetTime env.year env.month env.date

/-- `new Date(_value).getTime()` for the values `onlyFuture` can receive:
a `Date` copies its timestamp, a number is taken as a timestamp; anything
else yields an invalid date, modelled as `none` (NaN — every `<` comparison
against it is false).  (Date-string parsing is not modelled; no claim uses
it.) -/
def jsGetTime : Value → Option Int
  | Value.date t => some t
  | Value.num n => some n
  | _ => none

/-- `msg ? msg : dflt`: JS truthiness on the optional override (absent or
empty picks the default). -/
def jsMsgOr (msg : Option String) (dflt : String) : String :=
  match msg with
  | some m => if m = "" then dflt else m
  | none => dflt

/-- `dateField` (lines 142–159): a typed field (the `onlyFuture` method is
modelled as the standalone `onlyFuture` below). -/
def dateField (f : UntypedValidationCriteriaBuilder) : TypedValidationCriteriaBuilder :=
  typedField f

/-- The `date()` kind selector (line 173). -/
def UntypedValidationCriteriaBuilder.date (f : UntypedValidationCriteriaBuilder) :
    TypedValidationCriteriaBuilder := dateField f

/-- `onlyFuture(msg?)` (lines 144–157): push a custom criterion that passes
falsy values silently and otherwise fails when the value's timestamp is
strictly below `timeOfThisDay` evaluated at validation time, with the
override message or the default built from the field name (`String(null)`
is the string `"null"` when the name is unset). -/
def onlyFuture (b : TypedValidationCriteriaBuilder) (msg : Option String) :
    TypedValidationCriteriaBuilder :=
  let checker : CustomValidator := fun env value =>
    if truthy value then
      match jsGetTime value with
      | some vt =>
        if vt < timeOfThisDay env then
          some (jsMsgOr msg
            (fieldReadable (match b._fieldName with | some s => s | none => "null")
              ++ " can\x27t be in the past"))
        else none
      | none => none
    else none
  { b with customCriteria := b.customCriteria ++ [checker] }

/-- A `ValidationSchema<T>` object (lines 18–20), as the ordered sequence of
its entries (`Object.keys` order).  `consLeaf` is an entry carrying the
`__isValidator` marker (a built typed descriptor, line 45); `consNested`
is any other entry, treated as a nested schema — exactly the
`isFinalValidatorField` dispatch of lines 180–184. -/
inductive ValidationSchema where
  | nil
  | consLeaf (key : String) (builder : TypedValidationCriteriaBuilder) (rest : ValidationSchema)
  | consNested (key : String) (sub : ValidationSchema) (rest : ValidationSchema)

/-- A `VErrors<T>` map (lines 15–16), as its ordered entries: a key maps to
either the leaf's error strings or a nested error map. -/
inductive VErrors where
  | nil
  | consMsgs (key : String) (msgs : List String) (rest : VErrors)
  | consNested (key : String) (sub : VErrors) (rest : VErrors)
deriving DecidableEq

/-- `Map.size` of an error map: the number of top-level keys. -/
def VErrors.size : VErrors → Nat
  | VErrors.nil => 0
  | VErrors.consMsgs _ _ rest => rest.size + 1
  | VErrors.consNested _ _ rest => rest.size + 1

/-- First binding of a key in a JS object literal. -/
def objGet : List (String × Value) → String → Option Value
  | [], _ => none
  | (k, v) :: rest, key => if k = key then some v else objGet rest key

/-- `data[fieldName]` (line 191): property access throws `TypeError` when
`data` is `undefined` or `null`; on any other primitive it yields
`undefined`; on an object it yields the bound value or `undefined`. -/
def jsIndex (data : Value) (key : String) : Except RtError Value :=
  match data with
  | Value.undef => Except.error RtError.typeError
  | Value.vnull => Except.error RtError.typeError
  | Value.obj fields => Except.ok ((objGet fields key).getD Value.undef)
  | _ => Except.ok Value.undef

/-- Schema-level `validate` (lines 186–203): walk the schema entries in key
order; for a leaf call its `validate` and record a non-empty error list;
for a nested entry recurse on the corresponding data value and record a
non-empty sub-map.  Exceptions (the line-106 assert, the `TypeError` from
indexing missing nested data) propagate, aborting the walk; the `World`
threads through every descriptor call. -/
def validate (env : Env) : World → ValidationSchema → Value → Except RtError VErrors × World
  | w, ValidationSchema.nil, _ => (Except.ok VErrors.nil, w)
  | w, ValidationSchema.consLeaf key b rest, data =>
    match jsIndex data key with
    | Except.error err => (Except.error err, w)
    | Except.ok value =>
      match b.validate env w value with
      | (Except.error err, w1) => (Except.error err, w1)
      | (Except.ok e, w1) =>
        match validate env w1 rest data with
        | (Except.error err, w2) => (Except.error err, w2)
        | (Except.ok tail, w2) =>
          (Except.ok (if e.length != 0 then VErrors.consMsgs key e tail else tail), w2)
  | w, ValidationSchema.consNested key sub rest, data =>
    match jsIndex data key with
    | Except.error err => (Except.error err, w)
    | Except.ok value =>
      match validate env w sub value with
      | (Except.error err, w1) => (Except.error err, w1)
      | (Except.ok res, w1) =>
        match validate env w1 rest data with
        | (Except.error err, w2) => (Except.error err, w2)
        | (Except.ok tail, w2) =>
          (Except.ok (if res.size != 0 then VErrors.consNested key res tail else tail), w2)

/-! ### Concrete fixtures used by the claim theorems

`env0` is the local moment Sunday 2026-10-11 (so `getDay() = 0`,
`getDate() = 11`); `weekdayOf` confirms below that this is a consistent
calendar instant.  The builder fixtures replay the API calls a caller would
make, threading the criteria heap through each `required()` call. -/

def env0 : Env := { year := 2026, month := 9, day := 0, date := 11 }

/-- `field("name").string().required()` starting from the freshly loaded
module. -/
def nameBuild : TypedValidationCriteriaBuilder × World :=
  ((field "name").string).required none initialWorld

/-- `field("items").array().required()`. -/
def itemsBuild : TypedValidationCriteriaBuilder × World :=
  ((field "items").array).required none initialWorld

/-- `field("a").string()` — never marked required. -/
def aDesc : TypedValidationCriteriaBuilder := (field "a").string

/-- `field("b").string()` — never marked required. -/
def bDesc : TypedValidationCriteriaBuilder := (field "b").string

/-- The heap after `aDesc.required()` — `bDesc` is untouched by the caller. -/
def abWorld : World := (aDesc.required none initialWorld).2

/-- `field("start_date").date().onlyFuture()`. -/
def startDateDesc : TypedValidationCriteriaBuilder :=
  onlyFuture ((field "start_date").date) none

/-- `field("city").string().required()`. -/
def c4Build : TypedValidationCriteriaBuilder × World :=
  ((field "city").string).required none initialWorld

/-- The schema `{address: {city: field("city").string().required()}}`. -/
def c4Schema : ValidationSchema :=
  ValidationSchema.consNested "address"
    (ValidationSchema.consLeaf "city" c4Build.1 ValidationSchema.nil)
    ValidationSchema.nil

/-- `name = field("name").string().required()` then
`city = field("city").string().required()`, with the heap threaded through
both calls. -/
def c5Build : (TypedValidationCriteriaBuilder × TypedValidationCriteriaBuilder) × World :=
  let n := ((field "name").string).required none initialWorld
  let c := ((field "city").string).required none n.2
  ((n.1, c.1), c.2)

/-- The claim's schema
`{name: field("name").string().required(), address: {city: field("city").string().required()}}`. -/
def c5Schema : ValidationSchema :=
  ValidationSchema.consLeaf "name" c5Build.1.1
    (ValidationSchema.consNested "address"
      (ValidationSchema.consLeaf "city" c5Build.1.2 ValidationSchema.nil)
      ValidationSchema.nil)

/-- `field("first_name").string().required()`. -/
def fnBuild : TypedValidationCriteriaBuilder × World :=
  ((field "first_name").string).required none initialWorld

/-- A heap whose (only) shared criteria cell has `required = true`. -/
def wReq : World := { cells := [{ required := true, type := FieldType.string }] }

/-- A typed descriptor with a field name and three custom criteria: fail,
pass, fail — exercises accumulation across the custom-criteria loop. -/
def c8Desc : TypedValidationCriteriaBuilder :=
  { _fieldName := some "f"
    criteriaRef := DEFAULT_CRITERIA_ADDR
    customCriteria := [fun _ _ => some "e1", fun _ _ => none, fun _ _ => some "e2"]
    _messages := [] }

/-- A typed descriptor whose `_fieldName` is `null` — constructible only by
bypassing `field(name)`, which is exactly the defensive situation the
line-106 assert guards. -/
def bNoName : TypedValidationCriteriaBuilder :=
  { _fieldName := none
    criteriaRef := DEFAULT_CRITERIA_ADDR
    customCriteria := []
    _messages := [] }

/-- A typed descriptor with a set field name and no rules. -/
def bNamed : TypedValidationCriteriaBuilder := (field "f").string

/-! ### Helper lemmas -/

/-- The custom-criteria loop keeps, in registration order, exactly the
messages the checkers return: it is `List.filterMap`. -/
theorem runCustoms_eq_filterMap (env : Env) (value : Value) :
    ∀ cs : List CustomValidator,
      runCustoms env value cs = cs.filterMap (fun c => c env value)
  | [] => rfl
  | c :: rest => by
    unfold runCustoms
    cases h : c env value <;>
      simp [h, List.filterMap_cons, runCustoms_eq_filterMap env value rest]

/-- A descriptor's `validate` never writes to the criteria heap. -/
theorem fieldValidate_world (b : TypedValidationCriteriaBuilder) (env : Env)
    (w : World) (v : Value) : (b.validate env w v).2 = w := by
  unfold TypedValidationCriteriaBuilder.validate
  split
  · split <;> rfl
  · rfl

/-- Schema-level `validate` never writes to the criteria heap. -/
theorem validate_world (env : Env) :
    ∀ (s : ValidationSchema) (w : World) (d : Value), (validate env w s d).2 = w := by
  intro s
  induction s with
  | nil => intro w d; rfl
  | consLeaf key b rest ih =>
    intro w d
    simp only [validate]
    split
    · rfl
    · split
      · rename_i value hjeq scrut err w1 hv
        have h1 := fieldValidate_world b env w value
        rw [hv] at h1
        exact h1
      · rename_i value hjeq scrut e w1 hv
        have h1 := fieldValidate_world b env w value
        rw [hv] at h1
        split
        · rename_i scrutr err w2 hr
          have h2 := ih w1 d
          rw [hr] at h2
          exact h2.trans h1
        · rename_i scrutr tail w2 hr
          have h2 := ih w1 d
          rw [hr] at h2
          exact h2.trans h1
  | consNested key sub rest ihSub ihRest =>
    intro w d
    simp only [validate]
    split
    · rfl
    · split
      · rename_i value hjeq scrut err w1 hv
        have h1 := ihSub w value
        rw [hv] at h1
        exact h1
      · rename_i value hjeq scrut res w1 hv
        have h1 := ihSub w value
        rw [hv] at h1
        split
        · rename_i scrutr err w2 hr
          have h2 := ihRest w1 d
          rw [hr] at h2
          exact h2.trans h1
        · rename_i scrutr tail w2 hr
          have h2 := ihRest w1 d
          rw [hr] at h2
          exact h2.trans h1

/-! ### Claim theorems -/

/-- C1: refuted on the code (code bug).  The required check tests
`value instanceof String`, which is false for every primitive string, so a
required descriptor validated on the primitive strings `"  "` and `""`
returns no errors — the claim says it must return the required-failure
message.  The trim-and-check logic only ever fires on boxed
`new String("  ")` objects (third conjunct), and `undefined` still fails
(fourth); a boxed string that is non-empty after trimming passes (fifth). -/
theorem c1_required_blank_string :
    (nameBuild.1.validate env0 nameBuild.2 (Value.str "  ")).1 = Except.ok []
    ∧ (nameBuild.1.validate env0 nameBuild.2 (Value.str "")).1 = Except.ok []
    ∧ (nameBuild.1.validate env0 nameBuild.2 (Value.strObj "  ")).1
        = Except.ok ["Name is required"]
    ∧ (nameBuild.1.validate env0 nameBuild.2 Value.undef).1
        = Except.ok ["Name is required"]
    ∧ (nameBuild.1.validate env0 nameBuild.2 (Value.strObj " a ")).1 = Except.ok [] :=
  ⟨rfl, rfl, rfl, rfl, rfl⟩

/-- C2: refuted on the code (code bug).  `typedField` stores
`criteria: DEFAULT_CRITERIA` by reference, so every typed descriptor shares
the single module-level `Criteria` object.  Before any `required()` call,
`bDesc` (built by `field("b").string()` and never configured) is not
required and passes on `undefined`; after `aDesc.required()` — which never
touched `bDesc` — `bDesc`'s criteria reads `required = true` and
`bDesc.validate(undefined)` fails with `"B is required"`. -/
theorem c2_criteria_sharing :
    (getCriteria initialWorld bDesc).required = false
    ∧ (bDesc.validate env0 initialWorld Value.undef).1 = Except.ok []
    ∧ (getCriteria abWorld bDesc).required = true
    ∧ (bDesc.validate env0 abWorld Value.undef).1 = Except.ok ["B is required"] :=
  ⟨rfl, rfl, rfl, rfl⟩

/-- C3: refuted on the code (code bug).  `timeOfThisDay` builds
`new Date(getFullYear(), getMonth(), getDay())` using the weekday instead
of the day of the month.  At the instant `env0` — Sunday 2026-10-11, a
consistent calendar moment (last conjunct: `weekdayOf 2026 10 11 = 0`) —
the threshold becomes `new Date(2026, 9, 0)` = 2026-09-30 (third
conjunct), not start-of-today 2026-10-11.  So the date 2026-10-05, which
is strictly earlier than local midnight of the current calendar day (first
conjunct), passes `onlyFuture` (second conjunct) instead of failing as the
claim states; only dates before 2026-09-30 fail (fourth).  The
absence-passes part of the claim does hold (fifth and sixth). -/
theorem c3_onlyFuture_threshold :
    jsDateGetTime 2026 9 5 < startOfTodayIntended env0
    ∧ (startDateDesc.validate env0 initialWorld (Value.date (jsDateGetTime 2026 9 5))).1
        = Except.ok []
    ∧ timeOfThisDay env0 = jsDateGetTime 2026 8 30
    ∧ (startDateDesc.validate env0 initialWorld (Value.date (jsDateGetTime 2026 8 29))).1
        = Except.ok ["Start date can\x27t be in the past"]
    ∧ (startDateDesc.validate env0 initialWorld Value.undef).1 = Except.ok []
    ∧ (startDateDesc.validate env0 initialWorld Value.vnull).1 = Except.ok []
    ∧ weekdayOf 2026 10 11 = 0 :=
  ⟨by decide, rfl, by decide, rfl, rfl, rfl, by decide⟩

/-- C4: refuted on the code (code bug).  On the schema
`{address: {city: field("city").string().required()}}` with data `{}` (or
`{address: null}`), the recursive call validates the nested schema against
`undefined`/`null`, and `data[fieldName]` at line 191 throws a `TypeError`
— `validate` does not return an errors map.  With `address` present as an
object it returns normally (third conjunct), locating the abort exactly at
missing nested data. -/
theorem c4_nested_missing_throws :
    (validate env0 c4Build.2 c4Schema (Value.obj [])).1 = Except.error RtError.typeError
    ∧ (validate env0 c4Build.2 c4Schema (Value.obj [("address", Value.vnull)])).1
        = Except.error RtError.typeError
    ∧ (validate env0 c4Build.2 c4Schema (Value.obj [("address", Value.obj [])])).1
        = Except.ok (VErrors.consNested "address"
            (VErrors.consMsgs "city" ["City is required"] VErrors.nil) VErrors.nil) :=
  ⟨rfl, rfl, rfl⟩

/-- C5: refuted on the code (code bug, same root cause as C1).  On the
claim's own example — `{name: "", address: {city: ""}}` with both fields
required — the code returns the EMPTY error map, because the primitive
empty strings never satisfy `instanceof String` (first conjunct); the
claim says the result is the two-level map.  The passing example does
yield the empty map (second conjunct), and with the values missing
entirely the claimed two-level mirror shape does appear (third conjunct). -/
theorem c5_schema_example :
    validate env0 c5Build.2 c5Schema
        (Value.obj [("name", Value.str ""), ("address", Value.obj [("city", Value.str "")])])
      = (Except.ok VErrors.nil, c5Build.2)
    ∧ validate env0 c5Build.2 c5Schema
        (Value.obj [("name", Value.str "Ann"),
          ("address", Value.obj [("city", Value.str "Rome")])])
      = (Except.ok VErrors.nil, c5Build.2)
    ∧ validate env0 c5Build.2 c5Schema (Value.obj [("address", Value.obj [])])
      = (Except.ok (VErrors.consMsgs "name" ["Name is required"]
          (VErrors.consNested "address"
            (VErrors.consMsgs "city" ["City is required"] VErrors.nil) VErrors.nil)),
         c5Build.2) :=
  ⟨rfl, rfl, rfl⟩

/-- C6: confirmed.  For every descriptor whose field name is set, whose
(shared) criteria cell has `required = true`, and whose stored override is
not the empty string (the builder's `required(msg)` never stores `""`),
validating `undefined` yields a non-empty list whose head is the stored
override message if one exists, and otherwise the default built by
replacing each underscore with a space, upper-casing the first character,
lower-casing the rest, and appending " is required". -/
theorem c6_required_message (env : Env) (w : World) (b : TypedValidationCriteriaBuilder)
    (fn : String) (hname : b._fieldName = some fn)
    (hreq : (getCriteria w b).required = true)
    (hmsg : mapGet b._messages CriteriaKey.required ≠ some "") :
    ∃ rest, (b.validate env w Value.undef).1 =
      Except.ok (((mapGet b._messages CriteriaKey.required).getD
        (lodashCapitalize (replaceAllUnderscoreWithSpace fn) ++ " is required")) :: rest) := by
  refine ⟨runCustoms env Value.undef b.customCriteria, ?_⟩
  unfold TypedValidationCriteriaBuilder.validate
  rw [hreq, hname]
  have : (true && requiredTriggers Value.undef) = true := rfl
  rw [this]
  simp only [if_true]
  congr 1
  unfold getMessageForCriteria buildDefaultMessageForCriteria fieldReadable
  cases hm : mapGet b._messages CriteriaKey.required with
  | none => rfl
  | some m =>
    have hne : ¬(m = "") := fun h => hmsg (by rw [hm, h])
    simp [hne]

/-- Witness for C6 at `field("first_name").string().required()` and value
`undefined`: the head of the error list is the default message
`"First name is required"`. -/
theorem c6_required_message_witness :
    ∃ rest, (fnBuild.1.validate env0 fnBuild.2 Value.undef).1 =
      Except.ok ("First name is required" :: rest) := by
  obtain ⟨rest, hr⟩ := c6_required_message env0 fnBuild.2 fnBuild.1 "first_name" rfl rfl
    (by decide)
  exact ⟨rest, hr⟩

/-- C7: refuted on the code (code bug, same root cause as C1).  The code's
emptiness notion does cover absence, zero-element arrays and zero-element
sets, and never fires on numbers, booleans, `0`, `false` or `NaN` — but
blank-after-trim PRIMITIVE strings are not "empty" to it (first conjunct:
`"  "` passes), only blank boxed `String` objects are (third conjunct), so
the claim's characterisation of "empty" is wrong for strings. -/
theorem c7_empty_definition :
    (itemsBuild.1.validate env0 itemsBuild.2 (Value.str "  ")).1 = Except.ok []
    ∧ (itemsBuild.1.validate env0 itemsBuild.2 Value.undef).1
        = Except.ok ["Items is required"]
    ∧ (itemsBuild.1.validate env0 itemsBuild.2 (Value.strObj " ")).1
        = Except.ok ["Items is required"]
    ∧ (itemsBuild.1.validate env0 itemsBuild.2 (Value.arr [])).1
        = Except.ok ["Items is required"]
    ∧ (itemsBuild.1.validate env0 itemsBuild.2 (Value.set [])).1
        = Except.ok ["Items is required"]
    ∧ (itemsBuild.1.validate env0 itemsBuild.2 (Value.arr [Value.num 1])).1 = Except.ok []
    ∧ (itemsBuild.1.validate env0 itemsBuild.2 (Value.set [Value.num 1])).1 = Except.ok []
    ∧ (itemsBuild.1.validate env0 itemsBuild.2 (Value.num 0)).1 = Except.ok []
    ∧ (itemsBuild.1.validate env0 itemsBuild.2 (Value.bool false)).1 = Except.ok []
    ∧ (itemsBuild.1.validate env0 itemsBuild.2 Value.nan).1 = Except.ok [] :=
  ⟨rfl, rfl, rfl, rfl, rfl, rfl, rfl, rfl, rfl, rfl⟩

/-- C8: confirmed.  For every descriptor with a set field name, `validate`
returns exactly the required-check prefix — a single message when the
required criterion is set and the value is "empty", the empty list
otherwise — followed by `filterMap` over the registered custom criteria:
the required check contributes at most one message, first; every custom
criterion runs in registration order regardless of earlier failures; all
messages accumulate in evaluation order. -/
theorem c8_evaluation_order (env : Env) (w : World) (b : TypedValidationCriteriaBuilder)
    (v : Value) (fn : String) (h : b._fieldName = some fn) :
    (b.validate env w v).1 =
      Except.ok ((if (getCriteria w b).required && requiredTriggers v
          then [getMessageForCriteria b fn CriteriaKey.required] else [])
        ++ b.customCriteria.filterMap (fun c => c env v)) := by
  unfold TypedValidationCriteriaBuilder.validate
  rw [← runCustoms_eq_filterMap]
  cases hc : (getCriteria w b).required && requiredTriggers v with
  | true =>
    rw [h]
    rfl
  | false => rfl

/-- Witness for C8: a required descriptor named "f" with three custom
criteria (fail "e1", pass, fail "e2") on value `undefined` accumulates, in
evaluation order, the required message first and then both custom
messages. -/
theorem c8_evaluation_order_witness :
    (c8Desc.validate env0 wReq Value.undef).1 = Except.ok ["F is required", "e1", "e2"] :=
  c8_evaluation_order env0 wReq c8Desc Value.undef "f" rfl

/-- C9: confirmed.  Schema-level `validate` returns the criteria heap it was
given unchanged (no descriptor state — criteria, custom criteria, message
overrides — is written by validation), and calling it again on the
returned heap with the same schema and data yields a structurally equal
result. -/
theorem c9_validate_stateless (env : Env) (w : World) (s : ValidationSchema) (d : Value) :
    (validate env w s d).2 = w
    ∧ validate env (validate env w s d).2 s d = validate env w s d := by
  refine ⟨validate_world env s w d, ?_⟩
  rw [validate_world env s w d]

/-- C10: confirmed.  (1) When a descriptor's field name is unset (`null`)
and the required check fires, `validate` aborts with the assertion failure
from line 106 instead of returning; (2) when the field name is set, the
assertion can never fire; (3) the builder `field(name).string()` always
sets the name, and (4)–(5) `required()` and `onlyFuture()` preserve it —
so descriptors built through the API never trigger the assert. -/
theorem c10_fieldname_assert :
    (∀ (env : Env) (w : World) (b : TypedValidationCriteriaBuilder) (v : Value),
      b._fieldName = none → (getCriteria w b).required = true → requiredTriggers v = true →
        (b.validate env w v).1 = Except.error RtError.assertionFailed)
    ∧ (∀ (env : Env) (w : World) (b : TypedValidationCriteriaBuilder) (v : Value)
        (fn : String), b._fieldName = some fn →
        (b.validate env w v).1 ≠ Except.error RtError.assertionFailed)
    ∧ (∀ n : String, ((field n).string)._fieldName = some n)
    ∧ (∀ (b : TypedValidationCriteriaBuilder) (msg : Option String) (w : World),
        ((b.required msg w).1)._fieldName = b._fieldName)
    ∧ (∀ (b : TypedValidationCriteriaBuilder) (msg : Option String),
        (onlyFuture b msg)._fieldName = b._fieldName) := by
  refine ⟨?_, ?_, fun n => rfl, ?_, fun b msg => rfl⟩
  · intro env w b v hname hreq htrig
    unfold TypedValidationCriteriaBuilder.validate
    rw [hreq, htrig, hname]
    rfl
  · intro env w b v fn hname
    unfold TypedValidationCriteriaBuilder.validate
    split
    · rw [hname]
      intro hcontra
      exact Except.noConfusion hcontra
    · intro hcontra
      exact Except.noConfusion hcontra
  · intro b msg w
    unfold TypedValidationCriteriaBuilder.required
    cases msg with
    | none => rfl
    | some m =>
      by_cases hm : m = "" <;> simp [hm]

/-- Witness for C10: a hand-made descriptor with `_fieldName = null` and the
shared criteria cell required aborts on `undefined` with the assertion
failure, while the API-built `field("f").string()` never produces that
abort. -/
theorem c10_fieldname_assert_witness :
    (bNoName.validate env0 wReq Value.undef).1 = Except.error RtError.assertionFailed
    ∧ (bNamed.validate env0 wReq Value.undef).1 ≠ Except.error RtError.assertionFailed :=
  ⟨c10_fieldname_assert.1 env0 wReq bNoName Value.undef rfl rfl rfl,
   c10_fieldname_assert.2.1 env0 wReq bNamed Value.undef "f" rfl⟩

end FormValidation
